import Mathlib

/-
  Verification of the jessiql filter / sort compilation pipeline
  (src/jessiql/operations/filter.py, src/jessiql/operations/sort.py,
  src/jessiql/query_object/resolve.py).

  The embedding models:
  * Python literal values appearing in a Query Object (`PyValue`),
  * SQL values with NULL and Postgres arrays (`SqlVal`),
  * the SQLAlchemy column-expression fragments that the compiler builds
    (`SqlExpr`, `SqlPred`), together with their three-valued
    (SQL / Kleene) evaluation over a row (`evalPred`),
  * the operator tables, argument validation and boolean composition of
    `FilterOperation`, and the sort compilation of `SortOperation`.

  Functions keep the names of the Python functions they embed.
-/

/-- A non-NULL SQL scalar value (also used for Python scalar literals):
text, integer or boolean. -/
inductive Scalar where
  | s (v : String)
  | i (v : Int)
  | b (v : Bool)
deriving DecidableEq, Repr

/-- A SQL value as stored in a column: NULL, scalar, or a Postgres array. -/
inductive SqlVal where
  | null
  | scalar (v : Scalar)
  | array (vs : List Scalar)
deriving DecidableEq, Repr

/-- A database row: each column name holds a `SqlVal`. -/
def Row := String → SqlVal

/-- A Python literal supplied in a filter condition: either a scalar, or an
array-shaped value (list / tuple / set / frozenset). -/
inductive PyValue where
  | scalar (v : Scalar)
  | array (vs : List Scalar)
deriving DecidableEq, Repr

/-- filter.py:193-195, `_is_array`: is the provided value an array of some
sorts (list, tuple, set, frozenset)? -/
def _is_array : PyValue → Bool
  | .array _ => true
  | .scalar _ => false

/-- Python truthiness of a literal (`if oval` in the operator lambdas):
False/0/empty string/empty collection are falsy. -/
def pyTruthy : PyValue → Bool
  | .scalar (.b v) => v
  | .scalar (.i v) => v != 0
  | .scalar (.s v) => v != ""
  | .array vs => !vs.isEmpty

/-- Python `oval == 0` as used by the `$size` lambda (filter.py:162).
In Python, `0 == 0` and `False == 0` hold; strings and collections
never equal `0`. -/
def pyEqZero : PyValue → Bool
  | .scalar (.i v) => v == 0
  | .scalar (.b v) => v == false
  | _ => false

/-- A SQLAlchemy column-expression fragment as built by the filter compiler:
a column reference, a bound scalar literal, an array literal (the
`sa.cast(pg.array(val), pg.ARRAY(...))` of filter.py:44, or a plain Python
list bound into `in_()`), the Postgres `array_length(e, 1)` call of
filter.py:162, or the `sa.cast(col, coerce_type)` applied to JSON columns
at filter.py:52. -/
inductive SqlExpr where
  | col (name : String)
  | lit (v : Scalar)
  | litArray (vs : List Scalar)
  | arrayLength (e : SqlExpr)
  | castCoerced (e : SqlExpr)
deriving DecidableEq, Repr

/-- A SQLAlchemy boolean expression as built by `FilterOperation`.

`tru` is a Python `True` handed to SQLAlchemy (sql_anded_together, line 202).
`emptyClauseList` is the `BooleanClauseList` produced by `sa.and_()` /
`sa.or_()` with zero clauses: it generates no SQL text, so a WHERE clause
consisting of it alone is omitted and filters nothing.
`group` is `self_group()` (parentheses). `isNull` / `isNotNull` are what
SQLAlchemy renders for `== None` / `!= None`. `anyEq col v` is
`col.any(v)` (`v = ANY(col)`); `allNe col v` is `col.all(v, ne)`
(`v <> ALL(col)`); `overlapE` is `col.overlap(val)` (`col && val`);
`containsE` is `col.contains(val)` (`col @> val`). -/
inductive SqlPred where
  | tru
  | emptyClauseList
  | andL (ps : List SqlPred)
  | orL (ps : List SqlPred)
  | notP (p : SqlPred)
  | group (p : SqlPred)
  | eqE (a b : SqlExpr)
  | neE (a b : SqlExpr)
  | isDistinctFrom (a b : SqlExpr)
  | isNull (a : SqlExpr)
  | isNotNull (a : SqlExpr)
  | ltE (a b : SqlExpr)
  | leE (a b : SqlExpr)
  | gtE (a b : SqlExpr)
  | geE (a b : SqlExpr)
  | startsWith (a b : SqlExpr)
  | inE (a b : SqlExpr)
  | notInE (a b : SqlExpr)
  | anyEq (a v : SqlExpr)
  | allNe (a v : SqlExpr)
  | overlapE (a b : SqlExpr)
  | containsE (a b : SqlExpr)

/-- Kleene three-valued negation (`none` is SQL NULL / unknown). -/
def k3not : Option Bool → Option Bool := Option.map not

/-- Kleene three-valued conjunction. -/
def k3and : Option Bool → Option Bool → Option Bool
  | some false, _ => some false
  | _, some false => some false
  | some true, some true => some true
  | _, _ => none

/-- Kleene three-valued disjunction. -/
def k3or : Option Bool → Option Bool → Option Bool
  | some true, _ => some true
  | _, some true => some true
  | some false, some false => some false
  | _, _ => none

/-- Three-valued SQL equality on values: NULL on either side is unknown;
a scalar/array kind mismatch (a query that would not type-check in the
database) is also modelled as unknown. -/
def sqlEq3 : SqlVal → SqlVal → Option Bool
  | .scalar a, .scalar b => some (a == b)
  | .array a, .array b => some (a == b)
  | _, _ => none

/-- Three-valued `<` on scalars; comparisons across kinds or against NULL
are unknown. Strings compare lexicographically, false < true. -/
def scalarLt3 : SqlVal → SqlVal → Option Bool
  | .scalar (.i a), .scalar (.i b) => some (decide (a < b))
  | .scalar (.s a), .scalar (.s b) => some (decide (a < b))
  | .scalar (.b a), .scalar (.b b) => some (!a && b)
  | _, _ => none

/-- Three-valued `<=` on scalars, mirroring `scalarLt3`. -/
def scalarLe3 : SqlVal → SqlVal → Option Bool
  | .scalar (.i a), .scalar (.i b) => some (decide (a ≤ b))
  | .scalar (.s a), .scalar (.s b) => some (decide (a ≤ b))
  | .scalar (.b a), .scalar (.b b) => some (!a || b)
  | _, _ => none

/-- Evaluate a column-expression fragment over a row. Postgres
`array_length(x, 1)` is NULL both for a NULL array and for an empty array
(an empty array has no first dimension) — the fact the `$size: 0`
translation at filter.py:160-162 relies on. The JSON coercion cast does
not change the stored value. -/
def evalExpr (row : Row) : SqlExpr → SqlVal
  | .col name => row name
  | .lit v => .scalar v
  | .litArray vs => .array vs
  | .arrayLength e =>
    match evalExpr row e with
    | .array [] => .null
    | .array vs => .scalar (.i vs.length)
    | _ => .null
  | .castCoerced e => evalExpr row e

mutual

/-- Three-valued evaluation of a compiled boolean expression over a row,
following Postgres semantics. `emptyClauseList` renders no SQL text, so as
a WHERE clause it admits every row; we give it the corresponding
always-true reading. `IS NULL` / `IS NOT NULL` and `IS DISTINCT FROM` are
two-valued; ordinary comparisons are unknown on NULL. `IN` over an empty
list is SQLAlchemy's always-false empty-in expression. `v = ANY(arr)`,
`v <> ALL(arr)`, `arr && arr2`, `arr @> arr2` are NULL when the column
array is NULL. -/
def evalPred (row : Row) : SqlPred → Option Bool
  | .tru => some true
  | .emptyClauseList => some true
  | .andL ps => evalAndList row ps
  | .orL ps => evalOrList row ps
  | .notP p => k3not (evalPred row p)
  | .group p => evalPred row p
  | .eqE a b => sqlEq3 (evalExpr row a) (evalExpr row b)
  | .neE a b => k3not (sqlEq3 (evalExpr row a) (evalExpr row b))
  | .isDistinctFrom a b => some (decide (evalExpr row a ≠ evalExpr row b))
  | .isNull a => some (decide (evalExpr row a = .null))
  | .isNotNull a => some (decide (evalExpr row a ≠ .null))
  | .ltE a b => scalarLt3 (evalExpr row a) (evalExpr row b)
  | .leE a b => scalarLe3 (evalExpr row a) (evalExpr row b)
  | .gtE a b => scalarLt3 (evalExpr row b) (evalExpr row a)
  | .geE a b => scalarLe3 (evalExpr row b) (evalExpr row a)
  | .startsWith a b =>
    match evalExpr row a, evalExpr row b with
    | .scalar (.s x), .scalar (.s p) => some (p.isPrefixOf x)
    | _, _ => none
  | .inE a b =>
    match evalExpr row a, evalExpr row b with
    | _, .array [] => some false
    | .scalar v, .array vs => some (vs.contains v)
    | _, _ => none
  | .notInE a b =>
    match evalExpr row a, evalExpr row b with
    | _, .array [] => some true
    | .scalar v, .array vs => some (!vs.contains v)
    | _, _ => none
  | .anyEq a v =>
    match evalExpr row a, evalExpr row v with
    | .array vs, .scalar x => some (vs.contains x)
    | _, _ => none
  | .allNe a v =>
    match evalExpr row a, evalExpr row v with
    | .array vs, .scalar x => some (!vs.contains x)
    | _, _ => none
  | .overlapE a b =>
    match evalExpr row a, evalExpr row b with
    | .array vs, .array ws => some (vs.any (fun x => ws.contains x))
    | _, _ => none
  | .containsE a b =>
    match evalExpr row a, evalExpr row b with
    | .array vs, .array ws => some (ws.all (fun x => vs.contains x))
    | _, _ => none

/-- SQL conjunction of a clause list (identity: true). -/
def evalAndList (row : Row) : List SqlPred → Option Bool
  | [] => some true
  | p :: ps => k3and (evalPred row p) (evalAndList row ps)

/-- SQL disjunction of a clause list (identity: false). -/
def evalOrList (row : Row) : List SqlPred → Option Bool
  | [] => some false
  | p :: ps => k3or (evalPred row p) (evalOrList row ps)

end

/-- A row satisfies a predicate when it evaluates to true (a NULL /
unknown result does not select the row). -/
def rowMatches (p : SqlPred) (row : Row) : Bool :=
  evalPred row p == some true

/-- Modelled from the spec: the value shape of a column descriptor
(spec section 3, FieldDescriptor.valueShape), as reported by
`jessiql.sainfo.columns.is_array` / `is_json`, which are outside this
source tree. -/
inductive ValueShape where
  | scalar
  | array
  | structured
deriving DecidableEq, Repr

/-- Modelled from the spec: the catalog descriptor of a column
(spec section 4.1); only the value shape is relevant here. -/
structure ColumnInfo where
  shape : ValueShape
deriving DecidableEq, Repr

/-- Modelled from the spec: a schema entity (SqlAlchemy model class) seen
as a read-only catalog of named columns (spec section 4.1). A declarative
model class exposes a Python attribute for each of its columns and raises
AttributeError for any other attribute access. -/
structure SAModel where
  columns : List (String × ColumnInfo)

/-- The errors the pipeline can raise. `queryObjectError msg` embeds
`jessiql.exc.QueryObjectError` with the source's message string (the spec
calls the `Unsupported operator` case OperatorError and the
`argument must be an array` case ValueShapeError).
`schemaResolutionError` embeds the resolution failure of
`resolve_column_by_name` (jessiql.sainfo, modelled from the spec: it
carries the name and the context tag). `attributeError` is a Python
AttributeError. `resolveMisuseError` stands for the failure that
`resolve_column_by_name` produces when handed swapped arguments (the
exact exception class depends on code outside this tree).
`notImplementedError` is Python NotImplementedError. -/
inductive PyError where
  | attributeError
  | resolveMisuseError
  | queryObjectError (msg : String)
  | schemaResolutionError (name whereTag : String)
  | notImplementedError
deriving DecidableEq, Repr

/-- The `FieldExpression` node of a filter (jessiql.query_object.filter is
outside this tree; modelled from the spec, section 3:
FieldCondition with fieldName, operator, rawValue and an optional resolved
descriptor). `property`, `is_array` and `is_json` start unset and are
populated by resolution (resolve.py:131-139). -/
structure FieldExpressionS where
  field : String
  operator : String
  value : PyValue
  property : Option ColumnInfo := none
  is_array : Bool := false
  is_json : Bool := false
deriving DecidableEq, Repr

/-- The filter expression tree: a field condition or a boolean group
(spec section 3; jessiql.query_object.filter's FieldExpression /
BooleanExpression classes, dispatched on at filter.py:27-33). -/
inductive FilterExpr where
  | fieldC (e : FieldExpressionS)
  | boolC (operator : String) (clauses : List FilterExpr)

/-- Modelled from the spec: `resolve_column_by_name` (jessiql.sainfo.columns,
not under this tree): looks a column up by name in the catalog and fails
with a SchemaResolutionError carrying the name and the context tag when
absent (spec section 4.1). -/
def resolve_column_by_name (name : String) (model : SAModel) (whereTag : String) :
    Except PyError ColumnInfo :=
  match model.columns.lookup name with
  | some info => .ok info
  | none => .error (.schemaResolutionError name whereTag)

/-- resolve.py:131-139, `resolve_filtering_field_expression(expression,
Model, *, where)`: looks the expression's field up and populates
`property`, `is_array`, `is_json` on the node. The Python function
mutates `expression` in place and returns None; the embedding returns the
updated node. -/
def resolve_filtering_field_expression (expression : FieldExpressionS)
    (model : SAModel) (whereTag : String) : Except PyError FieldExpressionS :=
  match resolve_column_by_name expression.field model whereTag with
  | .error e => .error e
  | .ok info => .ok { expression with
      property := some info,
      is_array := info.shape == .array,
      is_json := info.shape == .structured }

/-- The type of an operator table entry: `lambda col, val, oval` —
column expression, (possibly coerced) value expression, original Python
value (filter.py:125-126). -/
def OperatorLambda := SqlExpr → SqlExpr → PyValue → SqlPred

/-- filter.py:124-142, `FilterOperation.SCALAR_OPERATORS`: the operator
table for scalar (non-array) columns. `$ne` is `col.is_distinct_from(val)`
— the source's own comment (filter.py:138-141) explains that `!=` against
a nullable column would not select NULL rows. `$exists` keys IS NOT NULL /
IS NULL on the truthiness of the original value. `== None` / `!= None`
render as IS NULL / IS NOT NULL. -/
def SCALAR_OPERATORS : String → Option OperatorLambda
  | "$eq" => some (fun col val _ => .eqE col val)
  | "$ne" => some (fun col val _ => .isDistinctFrom col val)
  | "$lt" => some (fun col val _ => .ltE col val)
  | "$lte" => some (fun col val _ => .leE col val)
  | "$gt" => some (fun col val _ => .gtE col val)
  | "$gte" => some (fun col val _ => .geE col val)
  | "$prefix" => some (fun col val _ => .startsWith col val)
  | "$in" => some (fun col val _ => .inE col val)
  | "$nin" => some (fun col val _ => .notInE col val)
  | "$exists" => some (fun col _ oval =>
      if pyTruthy oval then .isNotNull col else .isNull col)
  | _ => none

/-- filter.py:144-163, `FilterOperation.ARRAY_OPERATORS`: the operator
table for array columns. `$eq` / `$ne` branch on whether the original
Python value is itself array-shaped: whole-array (in)equality for an
array literal, `col.any(val)` / `col.all(val, ne)` for a scalar.
`$in` / `$nin` are array overlap and its negation, `$all` is containment,
and `$size` compares `array_length(col, 1)` with the value — against NULL
(`== None`, i.e. IS NULL) when the requested size equals 0. -/
def ARRAY_OPERATORS : String → Option OperatorLambda
  | "$eq" => some (fun col val oval =>
      if _is_array oval then .eqE col val else .anyEq col val)
  | "$ne" => some (fun col val oval =>
      if _is_array oval then .neE col val else .allNe col val)
  | "$in" => some (fun col val _ => .overlapE col val)
  | "$nin" => some (fun col val _ => .notP (.overlapE col val))
  | "$exists" => some (fun col _ oval =>
      if pyTruthy oval then .isNotNull col else .isNull col)
  | "$all" => some (fun col val _ => .containsE col val)
  | "$size" => some (fun col val oval =>
      if pyEqZero oval then .isNull (.arrayLength col)
      else .eqE (.arrayLength col) val)
  | _ => none

/-- filter.py:166: the operators that always require an array argument. -/
def ARRAY_OPERATORS_WITH_ARRAY_ARGUMENT : List String := ["$all", "$in", "$nin"]

/-- filter.py:113-119, `FilterOperation._validate_operator_argument`:
raise `QueryObjectError('Filter: <op> argument must be an array')` when an
array-argument-only operator received a non-array value. -/
def _validate_operator_argument (condition : FieldExpressionS) : Except PyError Unit :=
  if ARRAY_OPERATORS_WITH_ARRAY_ARGUMENT.contains condition.operator then
    if !(_is_array condition.value) then
      .error (.queryObjectError ("Filter: " ++ condition.operator ++ " argument must be an array"))
    else .ok ()
  else .ok ()

/-- filter.py:104-111, `FilterOperation._get_operator_lambda`: select the
table by the column's shape, then look the operator symbol up; a KeyError
becomes `QueryObjectError('Unsupported operator: <op>')`. -/
def _get_operator_lambda (operator : String) (use_array : Bool) :
    Except PyError OperatorLambda :=
  match (if use_array then ARRAY_OPERATORS operator else SCALAR_OPERATORS operator) with
  | some f => .ok f
  | none => .error (.queryObjectError ("Unsupported operator: " ++ operator))

/-- filter.py:94-102, `FilterOperation.use_operator`: validate the
argument shape FIRST (line 95), look the operator lambda up SECOND
(line 96), then apply it to (column expression, value, original value). -/
def use_operator (condition : FieldExpressionS)
    (column_expression value : SqlExpr) : Except PyError SqlPred :=
  match _validate_operator_argument condition with
  | .error e => .error e
  | .ok _ =>
    match _get_operator_lambda condition.operator condition.is_array with
    | .error e => .error e
    | .ok operator_lambda => .ok (operator_lambda column_expression value condition.value)

/-- filter.py:37. The source line is

`condition.property = resolve_filtering_field_expression(self.target_Model, condition, where='filter')`

but resolve.py:132 declares the resolver's parameters in the order
`(expression, Model, *, where)`: the model class is bound to `expression`
and the condition to `Model`. The resolver's first statement reads
`expression.field` (resolve.py:134), which here is an attribute access on
the model class. A declarative model exposes attributes only for its
columns, so a model without a column named "field" raises AttributeError
at that point. When such a column does exist, the attribute access yields
a column attribute object, and `resolve_column_by_name` (jessiql.sainfo,
outside this tree) is then handed that object in place of a name and a
FieldExpression in place of a model; modelled from the spec: the catalog
resolves string names against an entity type (spec section 4.1), so that
call cannot succeed either. In every case the call raises, so line 37
never completes (had it completed, it would moreover have assigned the
resolver's `None` return value to `condition.property`). -/
def line37_resolution_outcome (model : SAModel) : PyError :=
  match model.columns.lookup "field" with
  | none => PyError.attributeError
  | some _ => PyError.resolveMisuseError

/-- filter.py:35-59, `FilterOperation._compile_field_condition`.
Line 37 (see `line37_resolution_outcome`) raises before the rest of the
body (column/value coercion, lines 40-52, and `use_operator`, line 55)
can run, so compiling a field condition always propagates that error. -/
def _compile_field_condition (model : SAModel) (_condition : FieldExpressionS) :
    Except PyError SqlPred :=
  .error (line37_resolution_outcome model)

/-- filter.py:198-208, `sql_anded_together`: no conditions gives the
Python value `True` (a valid SQLAlchemy filtering expression); one
condition is returned as is; two or more are joined with `sa.and_` and
parenthesized by `self_group()`. -/
def sql_anded_together : List SqlPred → SqlPred
  | [] => .tru
  | [c] => c
  | cs => .group (.andL cs)

/-- `sa.and_(*criteria)` as invoked at filter.py:79: with no clauses it
yields the empty `BooleanClauseList` (which generates no SQL text), a
single clause is returned as is, and two or more form the clause list.
(Compiled sub-expressions are never SQLAlchemy's `True_`/`False_`
singletons, so the short-circuit pruning inside `BooleanClauseList` never
fires on the inputs that occur here.) -/
def sa_and : List SqlPred → SqlPred
  | [] => .emptyClauseList
  | [c] => c
  | cs => .andL cs

/-- `sa.or_(*criteria)` as invoked at filter.py:77; same construction as
`sa_and` with the disjunction operator. -/
def sa_or : List SqlPred → SqlPred
  | [] => .emptyClauseList
  | [c] => c
  | cs => .orL cs

/-- filter.py:61-92, `FilterOperation._compile_boolean_conditions`, after
the clauses have been compiled to `criteria`. `$not` joins them with
`sql_anded_together` and negates the whole (lines 63-68).
`$and`/`$or`/`$nor` build the conjunction/disjunction, parenthesize via
`self_group()` when there are multiple clauses, and for `$nor` negate the
parenthesized result (lines 70-92). Any other operator raises
NotImplementedError. -/
def _compile_boolean_conditions_from_criteria (operator : String)
    (criteria : List SqlPred) : Except PyError SqlPred :=
  if operator == "$not" then
    .ok (.notP (sql_anded_together criteria))
  else
    if operator == "$or" || operator == "$nor" then
      let cc := sa_or criteria
      let cc := if criteria.length > 1 then SqlPred.group cc else cc
      if operator == "$nor" then .ok (.notP cc) else .ok cc
    else if operator == "$and" then
      let cc := sa_and criteria
      let cc := if criteria.length > 1 then SqlPred.group cc else cc
      .ok cc
    else
      .error .notImplementedError

mutual

/-- filter.py:27-33, `FilterOperation._compile_condition`: dispatch on the
node kind (any other node raises NotImplementedError; the embedded tree
is the closed union, so that branch does not appear). For a boolean
group, both branches of `_compile_boolean_conditions` (filter.py:61-92)
first compile every clause in order (lines 64-67 resp. line 72), so that
common step is factored in front of the per-operator composition,
`_compile_boolean_conditions_from_criteria`. -/
def _compile_condition (model : SAModel) : FilterExpr → Except PyError SqlPred
  | .fieldC e => _compile_field_condition model e
  | .boolC operator clauses =>
    match _compile_clause_list model clauses with
    | .error e => .error e
    | .ok criteria => _compile_boolean_conditions_from_criteria operator criteria

/-- The list comprehensions at filter.py:64-67 and filter.py:72: compile
each clause in order; the first error propagates. -/
def _compile_clause_list (model : SAModel) : List FilterExpr → Except PyError (List SqlPred)
  | [] => .ok []
  | c :: cs =>
    match _compile_condition model c with
    | .error e => .error e
    | .ok p =>
      match _compile_clause_list model cs with
      | .error e => .error e
      | .ok ps => .ok (p :: ps)

end

/-- Sorting direction of a SortingField (spec section 3). -/
inductive Direction where
  | asc
  | desc
deriving DecidableEq, Repr

/-- Modelled from the spec: the SortingField node (spec section 3;
jessiql.query_object.sort is outside this tree): a field name and a
direction. -/
structure SortingField where
  name : String
  direction : Direction
deriving DecidableEq, Repr

/-- Modelled from the spec: `resolve_sorting_field_with_direction`
(jessiql.query_object, outside this tree; called Model-first at
sort.py:20): resolves the field's column in the catalog — failing with a
SchemaResolutionError for an unknown name — and pairs the column
expression with the field's direction (spec sections 4.1 and 4.5). -/
def resolve_sorting_field_with_direction (model : SAModel) (field : SortingField)
    (whereTag : String) : Except PyError (SqlExpr × Direction) :=
  match resolve_column_by_name field.name model whereTag with
  | .error e => .error e
  | .ok _ => .ok (SqlExpr.col field.name, field.direction)

/-- sort.py:18-22, `SortOperation.compile_columns`: the list comprehension
resolving each sorting field in declaration order; the first resolution
error propagates. -/
def compile_columns (model : SAModel) : List SortingField →
    Except PyError (List (SqlExpr × Direction))
  | [] => .ok []
  | f :: fs =>
    match resolve_sorting_field_with_direction model f "sort" with
    | .error e => .error e
    | .ok pair =>
      match compile_columns model fs with
      | .error e => .error e
      | .ok pairs => .ok (pair :: pairs)

/-- A concrete schema used by the witnesses: a scalar column `name` and an
array column `tags` (and, like any ordinary model, no column named
`field`). -/
def userModel : SAModel := ⟨[("name", ⟨.scalar⟩), ("tags", ⟨.array⟩)]⟩

/-- The predicate the `$size` table entry builds for requested size `k`
on array column `c` (filter.py:162, with `val = lit k`, `oval = k`). -/
def sizePred (c : String) (k : Int) : SqlPred :=
  if k == 0 then .isNull (.arrayLength (.col c))
  else .eqE (.arrayLength (.col c)) (.lit (.i k))

theorem k3and_true_right (x : Option Bool) : k3and x (some true) = x := by
  rcases x with _ | b
  · rfl
  · cases b <;> rfl

theorem compile_clause_list_ok_ne_nil (m : SAModel) (c : FilterExpr)
    (cs : List FilterExpr) (ps : List SqlPred)
    (h : _compile_clause_list m (c :: cs) = .ok ps) : ps ≠ [] := by
  intro hnil
  subst hnil
  unfold _compile_clause_list at h
  rcases h1 : _compile_condition m c with e | p
  · rw [h1] at h; exact Except.noConfusion h
  · rw [h1] at h
    rcases h2 : _compile_clause_list m cs with e | qs
    · rw [h2] at h; exact Except.noConfusion h
    · rw [h2] at h
      simp at h

theorem evalPred_sql_anded_together (row : Row) (ps : List SqlPred)
    (h : ps ≠ []) : evalPred row (sql_anded_together ps) = evalAndList row ps := by
  match ps with
  | [] => exact absurd rfl h
  | [p] =>
    show evalPred row p = k3and (evalPred row p) (evalAndList row [])
    rw [show evalAndList row [] = some true from rfl, k3and_true_right]
  | p :: q :: rest => rfl

/-- C2: For a BooleanGroup with operator `$or` and zero clauses,
compilation yields an always-true predicate — the empty
`BooleanClauseList`, which generates no SQL and so filters nothing — and
it is the very same identity element that a zero-clause `$and` group
compiles to. -/
theorem c2_zero_clause_or_is_always_true (m : SAModel) (row : Row) :
    _compile_condition m (.boolC "$or" []) = .ok SqlPred.emptyClauseList
    ∧ _compile_condition m (.boolC "$and" []) = .ok SqlPred.emptyClauseList
    ∧ evalPred row SqlPred.emptyClauseList = some true :=
  ⟨rfl, rfl, rfl⟩

/-- C10: For a BooleanGroup with operator `$not` and zero clauses, the
empty clause list is conjoined to the Python `True` identity
(sql_anded_together, filter.py:200-202) and then negated (filter.py:68),
so the compiled predicate is always false and excludes every row. -/
theorem c10_zero_clause_not_is_always_false (m : SAModel) (row : Row) :
    _compile_condition m (.boolC "$not" []) = .ok (SqlPred.notP SqlPred.tru)
    ∧ evalPred row (SqlPred.notP SqlPred.tru) = some false :=
  ⟨rfl, rfl⟩

/-- C1: For every BooleanGroup with operator `$not` and every non-empty
clause list whose clauses compile to `ps`, the compiled predicate is
`NOT` applied to the conjunction of `ps` as a whole (filter.py:63-68),
its evaluation is the Kleene negation of the conjunction's evaluation,
and the compiled expression is not the per-clause De Morgan form
`NOT(A1) OR NOT(A2)`: at the concrete clause pair below the compiler
produces `NOT ((NOT true) AND <empty>)`, which differs as an expression
from `(NOT (NOT true)) OR (NOT <empty>)` (the two render different SQL;
in three-valued logic they are of course equivalent, which is why the
claim's inequality is about the compiled expression). -/
theorem c1_not_negates_conjunction_as_a_whole (m : SAModel)
    (clauses : List FilterExpr) (ps : List SqlPred) (hne : clauses ≠ [])
    (hok : _compile_clause_list m clauses = .ok ps) :
    _compile_condition m (.boolC "$not" clauses) = .ok (.notP (sql_anded_together ps))
    ∧ (∀ row : Row, evalPred row (.notP (sql_anded_together ps))
        = k3not (evalAndList row ps))
    ∧ _compile_condition userModel
        (.boolC "$not" [FilterExpr.boolC "$not" [], FilterExpr.boolC "$and" []])
      = .ok (.notP (.group (.andL [.notP .tru, .emptyClauseList])))
    ∧ (SqlPred.notP (.group (.andL [.notP .tru, .emptyClauseList]))
        ≠ .orL [.notP (.notP .tru), .notP .emptyClauseList]) := by
  have hps : ps ≠ [] := by
    match clauses, hne with
    | c :: cs, _ => exact compile_clause_list_ok_ne_nil m c cs ps hok
  refine ⟨?_, ?_, rfl, fun h => SqlPred.noConfusion h⟩
  · show (match _compile_clause_list m clauses with
      | .error e => .error e
      | .ok criteria => _compile_boolean_conditions_from_criteria "$not" criteria)
      = Except.ok (.notP (sql_anded_together ps))
    rw [hok]
    rfl
  · intro row
    show k3not (evalPred row (sql_anded_together ps)) = k3not (evalAndList row ps)
    rw [evalPred_sql_anded_together row ps hps]

/-- Witness for C1 at a concrete input: the clause pair
`[$not [], $and []]` compiles (to `[NOT true, <empty>]`), and the `$not`
group around it compiles to the negated conjunction of the two. -/
theorem c1_witness :
    _compile_condition userModel
      (.boolC "$not" [FilterExpr.boolC "$not" [], FilterExpr.boolC "$and" []])
    = .ok (.notP (sql_anded_together [.notP .tru, .emptyClauseList])) :=
  (c1_not_negates_conjunction_as_a_whole userModel
    [FilterExpr.boolC "$not" [], FilterExpr.boolC "$and" []]
    [.notP .tru, .emptyClauseList]
    (by simp) rfl).1

/-- C3: the `$ne` entry of the scalar operator table (filter.py:128)
builds `col IS DISTINCT FROM val` — not raw inequality — so over column
values NULL, "x", "y" with filter `$ne "x"`, the NULL row and the "y"
row match and the "x" row does not (the general equation over any stored
value is included). The full `_compile_field_condition`, however, crashes
with AttributeError before reaching the table: filter.py:37 calls the
resolver with swapped arguments (see `line37_resolution_outcome`). -/
theorem c3_ne_has_is_distinct_from_semantics :
    (∀ (c : String) (x : Scalar),
      use_operator ⟨c, "$ne", .scalar x, none, false, false⟩ (.col c) (.lit x)
        = .ok (.isDistinctFrom (.col c) (.lit x)))
    ∧ (∀ (c : String) (x : Scalar) (v : SqlVal),
      rowMatches (.isDistinctFrom (.col c) (.lit x)) (fun _ => v)
        = decide (v ≠ .scalar x))
    ∧ rowMatches (.isDistinctFrom (.col "name") (.lit (.s "x"))) (fun _ => .null) = true
    ∧ rowMatches (.isDistinctFrom (.col "name") (.lit (.s "x")))
        (fun _ => .scalar (.s "x")) = false
    ∧ rowMatches (.isDistinctFrom (.col "name") (.lit (.s "x")))
        (fun _ => .scalar (.s "y")) = true
    ∧ _compile_field_condition userModel ⟨"name", "$ne", .scalar (.s "x"), none, false, false⟩
        = .error .attributeError := by
  refine ⟨fun c x => rfl, fun c x v => ?_, rfl, by decide, by decide, rfl⟩
  show (some (decide (v ≠ .scalar x)) == some true) = decide (v ≠ .scalar x)
  rcases h : decide (v ≠ SqlVal.scalar x) <;> simp [h]

/-- C4: the `$size` entry of the array operator table (filter.py:160-162)
compiles requested size 0 to `array_length(col, 1) IS NULL`, which is
satisfied exactly by a NULL column and by an empty array (Postgres
`array_length` is NULL for both), and a non-zero size `k` to
`array_length(col, 1) = k`, satisfied exactly by arrays of `k` elements
(NULL and empty arrays compare unknown and do not match). The uniform
statement below covers both: a stored array matches iff its length is the
requested size, and a NULL column matches iff the requested size is 0.
The full `_compile_field_condition`, however, crashes with AttributeError
before reaching the table (filter.py:37, see `line37_resolution_outcome`). -/
theorem c4_size_zero_matches_null_and_empty :
    (∀ (c : String) (k : Int),
      use_operator ⟨c, "$size", .scalar (.i k), none, true, false⟩ (.col c) (.lit (.i k))
        = .ok (sizePred c k))
    ∧ (∀ (c : String) (k : Int) (vs : List Scalar),
      rowMatches (sizePred c k) (fun _ => .array vs) = decide ((vs.length : Int) = k))
    ∧ (∀ (c : String) (k : Int),
      rowMatches (sizePred c k) (fun _ => .null) = decide (k = 0))
    ∧ _compile_field_condition userModel ⟨"tags", "$size", .scalar (.i 0), none, true, false⟩
        = .error .attributeError := by
  refine ⟨fun c k => rfl, fun c k vs => ?_, fun c k => ?_, rfl⟩
  · by_cases hk : k = 0
    · subst hk
      cases vs with
      | nil => rfl
      | cons a tl =>
        show (some (decide (SqlVal.scalar (.i ((a :: tl).length)) = .null)) == some true)
          = decide (((a :: tl).length : Int) = 0)
        simp
        omega
    · rw [sizePred, if_neg (by simpa using hk)]
      cases vs with
      | nil =>
        show (sqlEq3 .null (.scalar (.i k)) == some true) = decide ((0 : Int) = k)
        simp [sqlEq3]
        omega
      | cons a tl =>
        show (sqlEq3 (.scalar (.i ((a :: tl).length))) (.scalar (.i k)) == some true)
          = decide (((a :: tl).length : Int) = k)
        simp [sqlEq3]
        rcases eq_or_ne ((tl.length : Int) + 1) k with h | h <;> simp [h]
  · by_cases hk : k = 0
    · subst hk
      rfl
    · rw [sizePred, if_neg (by simpa using hk)]
      show (sqlEq3 (evalExpr _ (.arrayLength (.col c))) (.scalar (.i k)) == some true)
        = decide (k = 0)
      simp [sqlEq3, evalExpr, hk]

/-- Counterexample to C5: for a scalar column, operator `$all` and a
scalar literal, `use_operator` fails with the array-argument error
(spec name: ValueShapeError) and not with the unsupported-operator error
(spec name: OperatorError) — `_validate_operator_argument` (filter.py:95)
runs before `_get_operator_lambda` (filter.py:96), the opposite of the
order the claim asserts. -/
theorem c5_counterexample :
    use_operator ⟨"name", "$all", .scalar (.i 1), none, false, false⟩
      (.col "name") (.lit (.i 1))
      = .error (.queryObjectError "Filter: $all argument must be an array")
    ∧ PyError.queryObjectError "Filter: $all argument must be an array"
      ≠ PyError.queryObjectError "Unsupported operator: $all" :=
  ⟨rfl, by decide⟩

/-- C5 amended: in `use_operator` the array-argument validation (step 5 of
the spec) runs BEFORE the operator-table lookup (step 4), so a scalar
column with operator `$all` and a scalar literal fails with the
ValueShapeError message; only when the literal is array-shaped does the
lookup run and report `$all` as unsupported for the scalar table
(OperatorError). -/
theorem c5_validation_precedes_table_lookup
    (cond : FieldExpressionS) (col val : SqlExpr)
    (hop : cond.operator = "$all") (hshape : cond.is_array = false) :
    (_is_array cond.value = false →
      use_operator cond col val
        = .error (.queryObjectError "Filter: $all argument must be an array"))
    ∧ (_is_array cond.value = true →
      use_operator cond col val
        = .error (.queryObjectError "Unsupported operator: $all")) := by
  constructor
  · intro hv
    rw [use_operator, _validate_operator_argument, hop]
    rw [if_pos (by decide), if_pos (by rw [hv]; rfl)]
    rfl
  · intro hv
    rw [use_operator, _validate_operator_argument, hop]
    rw [if_pos (by decide), if_neg (by rw [hv]; exact fun h => Bool.noConfusion h)]
    rw [_get_operator_lambda, hshape]
    rfl

/-- Witness for the amended C5 at a concrete input: a `$all` condition on
a scalar column with the scalar literal 1. -/
theorem c5_witness :
    use_operator ⟨"tags2", "$all", .scalar (.i 1), none, false, false⟩
      (.col "tags2") (.lit (.i 1))
      = .error (.queryObjectError "Filter: $all argument must be an array") :=
  (c5_validation_precedes_table_lookup
    ⟨"tags2", "$all", .scalar (.i 1), none, false, false⟩
    (.col "tags2") (.lit (.i 1)) rfl rfl).1 rfl

/-- C6: `_validate_operator_argument` runs first in `use_operator`
(filter.py:95), so for operator `$all`, `$in` or `$nin` with a scalar
literal, `use_operator` fails with the array-argument error (spec name:
ValueShapeError) for ANY column shape (`ia` covers scalar and array
columns alike) and never reaches an operator function. The full
`_compile_field_condition`, however, crashes with AttributeError before
`use_operator` even runs (filter.py:37, see `line37_resolution_outcome`),
so end-to-end compilation reports the wrong error. -/
theorem c6_array_argument_operators_reject_scalar_literal :
    (∀ (f : String) (v : Scalar) (ia ij : Bool) (col val : SqlExpr),
      use_operator ⟨f, "$all", .scalar v, none, ia, ij⟩ col val
        = .error (.queryObjectError "Filter: $all argument must be an array")
      ∧ use_operator ⟨f, "$in", .scalar v, none, ia, ij⟩ col val
        = .error (.queryObjectError "Filter: $in argument must be an array")
      ∧ use_operator ⟨f, "$nin", .scalar v, none, ia, ij⟩ col val
        = .error (.queryObjectError "Filter: $nin argument must be an array"))
    ∧ _compile_field_condition userModel ⟨"name", "$in", .scalar (.s "a"), none, false, false⟩
      = .error .attributeError :=
  ⟨fun _ _ _ _ _ _ => ⟨rfl, rfl, rfl⟩, rfl⟩

/-- C7: compilation of a field condition is NOT free of resolution — the
first thing `_compile_field_condition` does is call the resolver
(filter.py:37), and it does so with swapped arguments while assigning the
resolver's None return to `condition.property`, so the call raises
AttributeError and no field condition ever compiles; the resolver itself,
invoked as declared (resolve.py:131-139), resolves the very same node
fine and writes the descriptor onto it. -/
theorem c7_compilation_itself_attempts_resolution_and_crashes :
    _compile_field_condition userModel ⟨"name", "$eq", .scalar (.s "x"), none, false, false⟩
      = .error .attributeError
    ∧ resolve_filtering_field_expression
        ⟨"name", "$eq", .scalar (.s "x"), none, false, false⟩ userModel "filter"
      = .ok ⟨"name", "$eq", .scalar (.s "x"), some ⟨.scalar⟩, false, false⟩
    ∧ line37_resolution_outcome userModel = .attributeError :=
  ⟨rfl, rfl, rfl⟩

/-- C8: the `$eq`/`$ne` entries of the array operator table
(filter.py:145-151) branch on `_is_array` of the original literal: an
array literal gives whole-array (in)equality, a scalar literal gives
`val = ANY(col)` resp. `val <> ALL(col)`; over a stored array `vs` these
evaluate to `vs = ws` / any-element-equals / `vs ≠ ws` /
all-elements-differ. The full `_compile_field_condition`, however,
crashes with AttributeError before reaching the table (filter.py:37, see
`line37_resolution_outcome`). -/
theorem c8_array_eq_ne_branch_on_literal_shape :
    (∀ (c : String) (ws : List Scalar) (v : Scalar),
      use_operator ⟨c, "$eq", .array ws, none, true, false⟩ (.col c) (.litArray ws)
        = .ok (.eqE (.col c) (.litArray ws))
      ∧ use_operator ⟨c, "$eq", .scalar v, none, true, false⟩ (.col c) (.lit v)
        = .ok (.anyEq (.col c) (.lit v))
      ∧ use_operator ⟨c, "$ne", .array ws, none, true, false⟩ (.col c) (.litArray ws)
        = .ok (.neE (.col c) (.litArray ws))
      ∧ use_operator ⟨c, "$ne", .scalar v, none, true, false⟩ (.col c) (.lit v)
        = .ok (.allNe (.col c) (.lit v)))
    ∧ (∀ (c : String) (vs ws : List Scalar) (v : Scalar),
      rowMatches (.eqE (.col c) (.litArray ws)) (fun _ => .array vs) = (vs == ws)
      ∧ rowMatches (.anyEq (.col c) (.lit v)) (fun _ => .array vs) = vs.contains v
      ∧ rowMatches (.neE (.col c) (.litArray ws)) (fun _ => .array vs) = !(vs == ws)
      ∧ rowMatches (.allNe (.col c) (.lit v)) (fun _ => .array vs) = !vs.contains v)
    ∧ _compile_field_condition userModel ⟨"tags", "$eq", .scalar (.s "a"), none, true, false⟩
      = .error .attributeError := by
  refine ⟨fun c ws v => ⟨rfl, rfl, rfl, rfl⟩, fun c vs ws v => ⟨?_, ?_, ?_, ?_⟩, rfl⟩
  · show (some (vs == ws) == some true) = (vs == ws)
    rcases h : vs == ws <;> simp [h]
  · show (some (vs.contains v) == some true) = vs.contains v
    rcases h : vs.contains v <;> simp [h]
  · show (k3not (some (vs == ws)) == some true) = !(vs == ws)
    rcases h : vs == ws <;> simp [h, k3not]
  · show (some (!vs.contains v) == some true) = !vs.contains v
    rcases h : vs.contains v <;> simp [h]

/-- C9: `compile_columns` (sort.py:18-22) turns the resolved sorting
fields into (column expression, direction) pairs in exactly declaration
order — a plain in-order traversal with no reordering, dropping or
deduplication (a duplicated field name yields a duplicated pair, as the
witness shows). -/
theorem c9_sort_compiles_in_declaration_order (m : SAModel)
    (fields : List SortingField)
    (h : ∀ f ∈ fields, (m.columns.lookup f.name).isSome) :
    compile_columns m fields
      = .ok (fields.map (fun f => (SqlExpr.col f.name, f.direction)))
    ∧ (fields.map (fun f => (SqlExpr.col f.name, f.direction))).length
      = fields.length := by
  refine ⟨?_, by simp⟩
  induction fields with
  | nil => rfl
  | cons f fs ih =>
    obtain ⟨info, hinfo⟩ := Option.isSome_iff_exists.mp (h f (List.mem_cons_self f fs))
    have hrest := ih (fun g hg => h g (List.mem_cons_of_mem f hg))
    rw [compile_columns, resolve_sorting_field_with_direction, resolve_column_by_name, hinfo]
    rw [hrest]
    rfl

/-- Witness for C9: a concrete sort with a duplicated field; all three
pairs appear, in order, duplicate included. -/
theorem c9_witness :
    compile_columns userModel
      [⟨"name", .asc⟩, ⟨"tags", .desc⟩, ⟨"name", .desc⟩]
      = .ok [(SqlExpr.col "name", .asc), (SqlExpr.col "tags", .desc),
             (SqlExpr.col "name", .desc)] :=
  (c9_sort_compiles_in_declaration_order userModel
    [⟨"name", .asc⟩, ⟨"tags", .desc⟩, ⟨"name", .desc⟩]
    (by intro f hf; fin_cases hf <;> rfl)).1
